import Mathlib

/-
Verification of the signed-firmware-image core of VW_Flash
(src/lib/signature_tools.py): metadata encoding, RSA signature slots,
image composition (sign_bin) and trailer parsing (read_bytes).

Modelling conventions:
* Python `bytes` is `List Nat` (one entry per byte).
* Python `str` is `List Nat` (one entry per Unicode scalar value);
  `.encode("utf-8")` is modelled by a real UTF-8 encoder, because the
  source truncates and pads strings before encoding them.
* The file system holding key files is an abstract map from path strings
  to parsed key-file content; the RSA/SHA-256 primitives of PyCryptodome
  are modelled abstractly by a deterministic signing function keyed by a
  numeric key identifier (PKCS#1 v1.5 signing is deterministic).
* Python exceptions are `Except PyError`.
* The free module-level name `input_bin` read by `sign_bin` is modelled
  as an `Option Bytes` parameter standing for the global-namespace
  lookup; the module as shipped binds no such name, which corresponds
  to the value `none`.
* The `logger` calls of `read_bytes` are collected as a list of
  `LogEvent` values, one constructor per logging statement in the
  source; the spec-level verification statuses correspond to these
  events (NotPresent = empty log, SecondaryAbsent = the
  `noSecondarySignature` event, and so on).
-/

set_option maxRecDepth 8192

namespace VWFlash

/-- A Python bytes object: one natural number per byte. -/
abbrev Bytes := List Nat

/-- A Python str: one natural number per Unicode scalar value. -/
abbrev PyStr := List Nat

/-- Python slice `l[-n:]` (clamped at the front, as Python clamps). -/
def pyLast (n : Nat) (l : Bytes) : Bytes := l.drop (l.length - n)

/-- Python slice `l[0:n]`. -/
def pyTake (n : Nat) (l : Bytes) : Bytes := l.take n

/-- Python slice `l[0:-n]` (empty when `l` has at most `n` elements). -/
def pyDropLast (n : Nat) (l : Bytes) : Bytes := l.take (l.length - n)

/-- Python slice `l[-a:-b]` for `b ≤ a`, with Python clamping at 0. -/
def pySliceNeg (a b : Nat) (l : Bytes) : Bytes :=
  (l.drop (l.length - a)).take ((l.length - b) - (l.length - a))

/-- Content of a key file once read and parsed: a private RSA key, a
public RSA key (both identified by an abstract numeric key id), or
bytes that `RSA.import_key` cannot parse. -/
inductive KeyFileContent
  | privKey (id : Nat)
  | pubKey (id : Nat)
  | garbage
  deriving DecidableEq, Repr

/-- The file system visible to the module: maps a path to the parsed
content of the key file stored there, `none` when the file is absent. -/
abbrev FileSystem := String → Option KeyFileContent

/-- Python exceptions that the modelled code can raise. -/
inductive PyError
  | nameError (n : String)
  | fileNotFound (p : String)
  | valueError
  | typeError
  deriving DecidableEq, Repr

/-- Abstract stand-in for the SHA-256 digest of a byte string; the
development never relies on collision behaviour, only on determinism. -/
def sha256Model (content : Bytes) : Nat :=
  content.foldl (fun a b => (a * 256 + b + 1) % (2 ^ 64)) 1

/-- Model of the deterministic PKCS#1 v1.5 RSA signature over the
SHA-256 digest of `content`, made by the private key with id `kid`,
for the reference 1024-bit modulus: a fixed-width 128-entry list whose
head records the key id and whose second entry records the digest. -/
def pkcs_sign (kid : Nat) (content : Bytes) : Bytes :=
  kid :: sha256Model content :: List.replicate 126 0

/-- Source `sign_datablock(bin_file, private_key_path)`: reads the key
file (raising if the file is missing), imports it (raising on
unparseable bytes), and signs the SHA-256 digest of `bin_file`
(PKCS#1 v1.5 signing with a public-only key raises TypeError). -/
def sign_datablock (fs : FileSystem) (bin_file : Bytes) (private_key_path : String) :
    Except PyError Bytes :=
  match fs private_key_path with
  | none => .error (.fileNotFound private_key_path)
  | some .garbage => .error .valueError
  | some (.pubKey _) => .error .typeError
  | some (.privKey k) => .ok (pkcs_sign k bin_file)

/-- Source `verify_bin(bin_file, signature, public_key_path)`: the file
read and `RSA.import_key` happen outside the try block (so a missing or
unparseable key file raises), while the PKCS#1 v1.5 verification itself
is wrapped in a bare try/except returning a boolean: any mismatched or
malformed signature yields `False`. Verification succeeds with either a
public or a private key file, using its public part. -/
def verify_bin (fs : FileSystem) (bin_file signature : Bytes) (public_key_path : String) :
    Except PyError Bool :=
  match fs public_key_path with
  | none => .error (.fileNotFound public_key_path)
  | some .garbage => .error .valueError
  | some (.privKey k) => .ok (decide (signature = pkcs_sign k bin_file))
  | some (.pubKey k) => .ok (decide (signature = pkcs_sign k bin_file))

/-- Right-pad a Python str with fill character `fill` to length `n`:
`s.ljust(n, fill)` (a no-op when `s` is already at least that long). -/
def pyLjust (n : Nat) (fill : Nat) (s : PyStr) : PyStr :=
  s ++ List.replicate (n - s.length) fill

/-- UTF-8 encoding of a single Unicode scalar value. -/
def utf8EncodeChar (c : Nat) : List Nat :=
  if c < 0x80 then [c]
  else if c < 0x800 then [0xC0 + c / 0x40, 0x80 + c % 0x40]
  else if c < 0x10000 then
    [0xE0 + c / 0x1000, 0x80 + c / 0x40 % 0x40, 0x80 + c % 0x40]
  else
    [0xF0 + c / 0x40000, 0x80 + c / 0x1000 % 0x40, 0x80 + c / 0x40 % 0x40, 0x80 + c % 0x40]

/-- Python `s.encode("utf-8")` over the scalar-value model of str. -/
def utf8Encode (s : PyStr) : Bytes := (s.map utf8EncodeChar).flatten

/-- The 9 bytes of the ASCII tag `METADATA:`. -/
def METADATA_tag : Bytes := [77, 69, 84, 65, 68, 65, 84, 65, 58]

/-- Source `build_metadata(boxcode, notes)`: the tag, then
`boxcode[0:15].ljust(15, chr 32)` UTF-8 encoded, then
`notes[0:70].ljust(70, chr 32)` UTF-8 encoded. Note that slicing and
`ljust` act on characters of the str, before UTF-8 encoding. -/
def build_metadata (boxcode notes : PyStr) : Bytes :=
  METADATA_tag ++ utf8Encode (pyLjust 15 32 (boxcode.take 15))
    ++ utf8Encode (pyLjust 70 32 (notes.take 70))

/-- The fixed trust-anchor key path hard-coded in the source. -/
def vwFlashPubPath : String := "./data/VW_Flash.pub"

/-- Source `sign_bin(bin_file, private_key_path, boxcode, notes)`.
`globals_input_bin` is the value of the module-global name `input_bin`
at call time (`none` in the module as shipped, where the name is bound
nowhere): every path after building the metadata evaluates `input_bin`,
so an unbound name raises NameError before any signature is computed.
The local `bin_file + metadata` buffer is built and then never read
again. An empty-string key path is falsy in Python, like `None`. -/
def sign_bin (globals_input_bin : Option Bytes) (fs : FileSystem) (bin_file : Bytes)
    (private_key_path : Option String) (boxcode notes : PyStr) : Except PyError Bytes :=
  let metadata := build_metadata boxcode notes
  let _bin_file_augmented := bin_file ++ metadata
  match globals_input_bin with
  | none => .error (.nameError "input_bin")
  | some input_bin =>
    match sign_datablock fs input_bin vwFlashPubPath with
    | .error e => .error e
    | .ok signature1 =>
      let sig2 : Except PyError Bytes :=
        match private_key_path with
        | some p => if p = "" then .ok signature1 else sign_datablock fs input_bin p
        | none => .ok signature1
      match sig2 with
      | .error e => .error e
      | .ok signature2 => .ok (input_bin ++ signature1 ++ signature2)

/-- One constructor per logging statement executed by `read_bytes`;
the levels in the source are: warning for `foundSignatureBlock`,
`firstSignatureValidated`, `noSecondarySignature`,
`secondSignatureValidated`; info for `metadataInfo` and
`additionalSignatureNoKey`; critical for `firstSignatureFailed` and
`secondSignatureFailed`. -/
inductive LogEvent
  | foundSignatureBlock
  | metadataInfo (b : Bytes)
  | firstSignatureValidated
  | firstSignatureFailed
  | noSecondarySignature
  | secondSignatureValidated
  | secondSignatureFailed
  | additionalSignatureNoKey
  deriving DecidableEq, Repr

/-- Result of `read_bytes`: the returned bytes together with the log
events emitted along the way. -/
structure ReadResult where
  payload : Bytes
  logs : List LogEvent
  deriving DecidableEq, Repr

/-- Source `read_bytes(file_path, public_key_file)`, with the bytes of
the file at `file_path` passed directly as `bin_data`. The candidate
trailer is `bin_data[-350:]`; when its first 9 bytes are the tag, the
two 128-byte signatures are cut from its end, the first is verified
against the fixed trust-anchor key over `bin_data[0:-256]`, the second
only when it differs from the first and a truthy `public_key_file` was
supplied, and `bin_data[0:-350]` is returned; otherwise the input is
returned unchanged. Verification results only drive logging. -/
def read_bytes (fs : FileSystem) (bin_data : Bytes) (public_key_file : Option String) :
    Except PyError ReadResult :=
  let sig_block := pyLast 350 bin_data
  if pyTake 9 sig_block = METADATA_tag then
    let signature1 := pySliceNeg 256 128 sig_block
    let signature2 := pyLast 128 sig_block
    match verify_bin fs (pyDropLast 256 bin_data) signature1 vwFlashPubPath with
    | .error e => .error e
    | .ok v1 =>
      let log1 := if v1 then [LogEvent.firstSignatureValidated] else [LogEvent.firstSignatureFailed]
      let log2 : Except PyError (List LogEvent) :=
        if signature1 = signature2 then .ok [LogEvent.noSecondarySignature]
        else
          match public_key_file with
          | some pk =>
            if pk = "" then .ok [LogEvent.additionalSignatureNoKey]
            else
              match verify_bin fs (pyDropLast 256 bin_data) signature2 pk with
              | .error e => .error e
              | .ok v2 =>
                .ok (if v2 then [LogEvent.secondSignatureValidated]
                     else [LogEvent.secondSignatureFailed])
          | none => .ok [LogEvent.additionalSignatureNoKey]
      match log2 with
      | .error e => .error e
      | .ok l2 =>
        .ok ⟨pyDropLast 350 bin_data,
             [LogEvent.foundSignatureBlock, LogEvent.metadataInfo (pyDropLast 256 sig_block)]
               ++ log1 ++ l2⟩
  else
    .ok ⟨bin_data, []⟩

/-! Concrete fixtures used by witnesses and counterexamples. -/

/-- A file system on which every path holds the public key with id 0. -/
def fsPub : FileSystem := fun _ => some (.pubKey 0)

/-- A file system holding the private key 1 at the fixed trust-anchor
path and the private key 2 everywhere else. -/
def fsTwoPriv : FileSystem := fun p =>
  if p = vwFlashPubPath then some (.privKey 1) else some (.privKey 2)

/-- A 350-byte stream that is all trailer: the tag, 85 spaces of
metadata and two byte-equal all-zero signature slots. -/
def imgEq : Bytes :=
  METADATA_tag ++ List.replicate 85 32 ++ List.replicate 128 0 ++ List.replicate 128 0

/-- The key file at `p` parses as an RSA key (private or public). -/
def importable (fs : FileSystem) (p : String) : Prop :=
  ∃ k, fs p = some (.privKey k) ∨ fs p = some (.pubKey k)

lemma verify_bin_isOk_of_importable (fs : FileSystem) (p : String) (c s : Bytes)
    (h : importable fs p) : ∃ b, verify_bin fs c s p = .ok b := by
  obtain ⟨k, hk | hk⟩ := h <;>
    exact ⟨_, by unfold verify_bin; rw [hk]⟩

lemma read_bytes_ok_payload (fs : FileSystem) (bin_data : Bytes) (pk : Option String)
    (r : ReadResult) (h : read_bytes fs bin_data pk = .ok r) :
    r.payload = if pyTake 9 (pyLast 350 bin_data) = METADATA_tag
      then pyDropLast 350 bin_data else bin_data := by
  simp only [read_bytes] at h
  repeat' split at h
  all_goals
    first
      | exact Except.noConfusion h
      | (injection h with h2; rw [← h2]; simp [*])

/-- Claim C8: with the module-global name `input_bin` unbound (as it is
in the shipped module, which defines it nowhere), `sign_bin` raises
NameError on every input and never returns a signed image. -/
theorem sign_bin_always_raises_nameError (fs : FileSystem) (bin_file : Bytes)
    (private_key_path : Option String) (boxcode notes : PyStr) :
    sign_bin none fs bin_file private_key_path boxcode notes
      = .error (.nameError "input_bin") := rfl

/-- Claim C1 (code bug): at the concrete composition input payload
`[0, 1, 2]`, boxcode `B`, notes `N`, with private keys available at
every path, `sign_bin` raises NameError instead of returning a signed
image, so no round trip through `read_bytes` can occur. -/
theorem sign_bin_roundtrip_blocked :
    sign_bin none (fun _ => some (.privKey 1)) [0, 1, 2] (some "sk.pem") [66] [78]
      = .error (.nameError "input_bin") := rfl

/-- Claim C2 (code bug): at a concrete input with a secondary key
supplied, `sign_bin` raises NameError before computing either
signature, so neither signature slot is ever computed over
payload ++ metadata. -/
theorem sign_bin_signature_content_unreachable :
    sign_bin none fsTwoPriv [5, 6] (some "second.pem") [] []
      = .error (.nameError "input_bin") := rfl

lemma utf8Encode_ascii (s : PyStr) (h : ∀ c ∈ s, c < 128) : utf8Encode s = s := by
  induction s with
  | nil => rfl
  | cons a t ih =>
    have ha : a < 128 := h a (by simp)
    have ht : ∀ c ∈ t, c < 128 := fun c hc => h c (by simp [hc])
    simp [utf8Encode, utf8EncodeChar, ha] at ih ⊢
    exact ih ht

lemma pyLjust_length (n f : Nat) (s : PyStr) (h : s.length ≤ n) :
    (pyLjust n f s).length = n := by
  simp [pyLjust]
  omega

lemma pyLjust_ascii (n : Nat) (s : PyStr) (h : ∀ c ∈ s, c < 128) :
    ∀ c ∈ pyLjust n 32 s, c < 128 := by
  intro c hc
  rcases List.mem_append.mp hc with hc | hc
  · exact h c hc
  · rcases List.eq_of_mem_replicate hc with rfl
    omega

lemma read_bytes_ok_of_importable (fs : FileSystem) (bin_data : Bytes) (pk : Option String)
    (h1 : importable fs vwFlashPubPath)
    (h2 : ∀ p, pk = some p → p ≠ "" → importable fs p) :
    ∃ r, read_bytes fs bin_data pk = .ok r := by
  obtain ⟨b1, hb1⟩ := verify_bin_isOk_of_importable fs vwFlashPubPath
    (pyDropLast 256 bin_data) (pySliceNeg 256 128 (pyLast 350 bin_data)) h1
  cases hr : read_bytes fs bin_data pk with
  | ok r => exact ⟨r, rfl⟩
  | error e =>
    exfalso
    by_cases hdet : pyTake 9 (pyLast 350 bin_data) = METADATA_tag
    · by_cases hs : pySliceNeg 256 128 (pyLast 350 bin_data) = pyLast 128 (pyLast 350 bin_data)
      · rw [hs] at hb1
        simp [read_bytes, hdet, hs, hb1] at hr
      · cases pk with
        | none => simp [read_bytes, hdet, hs, hb1] at hr
        | some p =>
          by_cases hp : p = ""
          · simp [read_bytes, hdet, hs, hb1, hp] at hr
          · obtain ⟨b2, hb2⟩ := verify_bin_isOk_of_importable fs p
              (pyDropLast 256 bin_data) (pyLast 128 (pyLast 350 bin_data)) (h2 p rfl hp)
            simp [read_bytes, hdet, hs, hb1, hp, hb2] at hr
    · simp [read_bytes, hdet] at hr

/-- Claim C7 (code bug): composing without a secondary key never
produces an image with `sig1 == sig2`, because `sign_bin` raises
NameError at a concrete single-signer input; the parser half of the
claim does hold: on a concrete image whose two signature slots are
byte-equal, `read_bytes` gives the same result whether or not a
secondary public key is supplied, logs `noSecondarySignature` (the
SecondaryAbsent status) and performs no secondary verification. -/
theorem single_signer_composition_blocked :
    sign_bin none fsTwoPriv [2] none [] [] = .error (.nameError "input_bin")
    ∧ read_bytes fsPub imgEq (some "other.pub") = read_bytes fsPub imgEq none
    ∧ (read_bytes fsPub imgEq none).map
        (fun r => decide (LogEvent.noSecondarySignature ∈ r.logs)) = .ok true
    ∧ (read_bytes fsPub imgEq none).map
        (fun r => decide (LogEvent.secondSignatureValidated ∈ r.logs
          ∨ LogEvent.secondSignatureFailed ∈ r.logs)) = .ok false :=
  ⟨rfl, rfl, rfl, rfl⟩

/-- Claim C10: whenever the global name `input_bin` is bound (the only
situation in which `sign_bin` returns at all), the first signature of
the composed image is computed by `sign_datablock` with the fixed key
file `./data/VW_Flash.pub`, independently of every caller argument,
and the caller-supplied `private_key_path` determines only the second
signature slot (which mirrors the first when that path is absent or
empty). -/
theorem sign_bin_primary_uses_fixed_key (i : Bytes) (fs : FileSystem) (bin_file : Bytes)
    (private_key_path : Option String) (boxcode notes : PyStr) (out : Bytes)
    (h : sign_bin (some i) fs bin_file private_key_path boxcode notes = .ok out) :
    ∃ s1 s2, sign_datablock fs i vwFlashPubPath = .ok s1
      ∧ out = i ++ s1 ++ s2
      ∧ ((private_key_path = none ∨ private_key_path = some "") → s2 = s1)
      ∧ ∀ p, private_key_path = some p → p ≠ "" → sign_datablock fs i p = .ok s2 := by
  simp only [sign_bin] at h
  cases h1 : sign_datablock fs i vwFlashPubPath with
  | error e =>
    rw [h1] at h
    exact Except.noConfusion h
  | ok s1 =>
    rw [h1] at h
    cases private_key_path with
    | none =>
      have h2 : (Except.ok (i ++ s1 ++ s1) : Except PyError Bytes) = Except.ok out := h
      injection h2 with h3
      exact ⟨s1, s1, rfl, h3.symm, fun _ => rfl, fun p hp => nomatch hp⟩
    | some p =>
      by_cases hpe : p = ""
      · subst hpe
        have h2 : (Except.ok (i ++ s1 ++ s1) : Except PyError Bytes) = Except.ok out := h
        injection h2 with h3
        refine ⟨s1, s1, rfl, h3.symm, fun _ => rfl, fun q hq hne => ?_⟩
        injection hq with hq2
        exact absurd hq2.symm hne
      · cases h2 : sign_datablock fs i p with
        | error e =>
          dsimp only at h
          rw [if_neg hpe, h2] at h
          exact Except.noConfusion h
        | ok s2 =>
          dsimp only at h
          rw [if_neg hpe, h2] at h
          have h3 : (Except.ok (i ++ s1 ++ s2) : Except PyError Bytes) = Except.ok out := h
          injection h3 with h4
          refine ⟨s1, s2, rfl, h4.symm, ?_, fun q hq hne => ?_⟩
          · rintro (hc | hc)
            · exact Option.noConfusion hc
            · injection hc with hc2
              exact absurd hc2 hpe
          · injection hq with hq2
            rw [← hq2]
            exact h2

/-- Claim C10 witness: a concrete run with the global bound to `[7]`, a
private key 1 at the fixed trust-anchor path, and a private key 2 at
the caller-supplied path `k2`. -/
theorem sign_bin_primary_uses_fixed_key_witness :
    ∃ s1 s2, sign_datablock fsTwoPriv [7] vwFlashPubPath = .ok s1
      ∧ ([7] : Bytes) ++ pkcs_sign 1 [7] ++ pkcs_sign 2 [7] = [7] ++ s1 ++ s2
      ∧ ((some "k2" = (none : Option String) ∨ some "k2" = some "") → s2 = s1)
      ∧ ∀ p, some "k2" = some p → p ≠ "" → sign_datablock fsTwoPriv [7] p = .ok s2 :=
  sign_bin_primary_uses_fixed_key [7] fsTwoPriv [] (some "k2") [] []
    ([7] ++ pkcs_sign 1 [7] ++ pkcs_sign 2 [7]) rfl

/-- Claim C3 counterexample: the 9-byte input consisting of exactly the
tag `METADATA:` is shorter than 350 bytes, yet the parser does not
return it unchanged: it detects a trailer and returns the empty
payload. -/
theorem short_metadata_input_not_returned_unchanged :
    METADATA_tag.length < 350
    ∧ (read_bytes fsPub METADATA_tag none).map ReadResult.payload = .ok []
    ∧ METADATA_tag ≠ [] :=
  ⟨by decide, rfl, by decide⟩

/-- Claim C3 (amended): an input whose candidate trailer — its last 350
bytes, or the whole input when shorter — does not begin with the tag
`METADATA:` is returned unchanged, with no verification activity and no
logging (the NotPresent outcome). The length of the input alone does
not force this branch. -/
theorem read_bytes_no_tag_passthrough (fs : FileSystem) (bin_data : Bytes)
    (public_key_file : Option String)
    (h : pyTake 9 (pyLast 350 bin_data) ≠ METADATA_tag) :
    read_bytes fs bin_data public_key_file = .ok ⟨bin_data, []⟩ := by
  simp [read_bytes, h]

/-- Claim C3 witness: the one-byte input `[0]` passes through. -/
theorem read_bytes_no_tag_passthrough_witness :
    read_bytes fsPub [0] none = .ok ⟨[0], []⟩ :=
  read_bytes_no_tag_passthrough fsPub [0] none (by decide)

/-- Claim C4: when a trailer is detected and the consulted key files
parse as RSA keys, `read_bytes` returns normally — whatever booleans
the two signature verifications produce — and the returned bytes are
always the input with its last 350 bytes removed; a cryptographic
mismatch changes only the logs, never the payload and never raises. -/
theorem read_bytes_fail_open (fs : FileSystem) (bin_data : Bytes) (pk : Option String)
    (hdet : pyTake 9 (pyLast 350 bin_data) = METADATA_tag)
    (h1 : importable fs vwFlashPubPath)
    (h2 : ∀ p, pk = some p → p ≠ "" → importable fs p) :
    ∃ r, read_bytes fs bin_data pk = .ok r ∧ r.payload = pyDropLast 350 bin_data := by
  obtain ⟨r, hr⟩ := read_bytes_ok_of_importable fs bin_data pk h1 h2
  refine ⟨r, hr, ?_⟩
  have hp := read_bytes_ok_payload fs bin_data pk r hr
  rwa [if_pos hdet] at hp

/-- Claim C4 witness: the all-trailer image with mismatching all-zero
signatures and a public key that validates neither slot still returns
its (empty) stripped payload. -/
theorem read_bytes_fail_open_witness :
    ∃ r, read_bytes fsPub imgEq none = .ok r ∧ r.payload = pyDropLast 350 imgEq :=
  read_bytes_fail_open fsPub imgEq none (by decide) ⟨0, Or.inr rfl⟩
    (fun p hp _ => Option.noConfusion hp)

/-- Claim C5: with any public key file at the consulted path,
`verify_bin` returns a boolean and never an exception: it returns true
exactly on the (structurally valid, fixed-width) signature produced by
the matching private key over the same content, and false on any other
signature — in particular on every signature made by a different key. -/
theorem verify_bin_total_predicate (fs : FileSystem) (content signature : Bytes)
    (p : String) (k : Nat) (h : fs p = some (.pubKey k)) :
    verify_bin fs content signature p = .ok (decide (signature = pkcs_sign k content))
    ∧ (verify_bin fs content signature p = .ok true ↔ signature = pkcs_sign k content)
    ∧ ∀ k2, k2 ≠ k → verify_bin fs content (pkcs_sign k2 content) p = .ok false := by
  refine ⟨by unfold verify_bin; rw [h], ?_, ?_⟩
  · unfold verify_bin
    rw [h]
    constructor
    · intro hh
      injection hh with hb
      exact of_decide_eq_true hb
    · intro hh
      rw [hh]
      simp
  · intro k2 hk2
    unfold verify_bin
    rw [h]
    simp [pkcs_sign, hk2]

/-- Claim C5 witness: a concrete content, a junk one-byte signature and
the public key 0. -/
theorem verify_bin_total_predicate_witness :
    verify_bin fsPub [1, 2] [9] "x" = .ok (decide (([9] : Bytes) = pkcs_sign 0 [1, 2]))
    ∧ (verify_bin fsPub [1, 2] [9] "x" = .ok true ↔ ([9] : Bytes) = pkcs_sign 0 [1, 2])
    ∧ ∀ k2, k2 ≠ 0 → verify_bin fsPub [1, 2] (pkcs_sign k2 [1, 2]) "x" = .ok false :=
  verify_bin_total_predicate fsPub [1, 2] [9] "x" 0 rfl

/-- Claim C6 counterexample: a boxcode of 15 two-byte characters
(U+00DF) makes `build_metadata` produce 109 bytes, not 94: truncation
and padding happen on characters before UTF-8 encoding, not on bytes. -/
theorem build_metadata_length_not_94 :
    (build_metadata (List.replicate 15 223) []).length = 109 ∧ (109 : Nat) ≠ 94 :=
  ⟨rfl, by decide⟩

/-- Claim C6 (amended): `build_metadata` is total and truncates the
boxcode to 15 characters and the notes to 70 characters, right-padding
each with spaces to that character count before UTF-8 encoding; when
every character is ASCII this coincides with the claimed byte-level
behaviour and the result is exactly 94 bytes: the 9-byte tag, the
15-byte padded boxcode field, the 70-byte padded notes field. -/
theorem build_metadata_ascii_fixed_width (boxcode notes : PyStr)
    (hb : ∀ c ∈ boxcode, c < 128) (hn : ∀ c ∈ notes, c < 128) :
    build_metadata boxcode notes
      = METADATA_tag ++ pyLjust 15 32 (boxcode.take 15) ++ pyLjust 70 32 (notes.take 70)
    ∧ (build_metadata boxcode notes).length = 94 := by
  have hb15 : ∀ c ∈ pyLjust 15 32 (boxcode.take 15), c < 128 :=
    pyLjust_ascii 15 _ (fun c hc => hb c (List.mem_of_mem_take hc))
  have hn70 : ∀ c ∈ pyLjust 70 32 (notes.take 70), c < 128 :=
    pyLjust_ascii 70 _ (fun c hc => hn c (List.mem_of_mem_take hc))
  have e1 := utf8Encode_ascii _ hb15
  have e2 := utf8Encode_ascii _ hn70
  have l1 : (pyLjust 15 32 (boxcode.take 15)).length = 15 :=
    pyLjust_length 15 32 _ (by simp [List.length_take])
  have l2 : (pyLjust 70 32 (notes.take 70)).length = 70 :=
    pyLjust_length 70 32 _ (by simp [List.length_take])
  constructor
  · simp [build_metadata, e1, e2]
  · simp [build_metadata, e1, e2, l1, l2, METADATA_tag]

/-- Claim C6 witness: boxcode `ABC` with empty notes yields the tag,
then `ABC` followed by 12 spaces, then 70 spaces — 94 bytes. -/
theorem build_metadata_ascii_fixed_width_witness :
    build_metadata [65, 66, 67] []
      = METADATA_tag ++ pyLjust 15 32 (([65, 66, 67] : PyStr).take 15)
          ++ pyLjust 70 32 (([] : PyStr).take 70)
    ∧ (build_metadata [65, 66, 67] []).length = 94 :=
  build_metadata_ascii_fixed_width [65, 66, 67] [] (by decide) (by decide)

/-- Claim C9: every byte string returned by `read_bytes` is a prefix of
its input: the whole input when no trailer tag is detected, and the
input with its last 350 bytes removed (empty for inputs of at most 350
bytes) when the candidate trailer begins with the tag. -/
theorem read_bytes_returns_prefix (fs : FileSystem) (bin_data : Bytes)
    (public_key_file : Option String) (r : ReadResult)
    (h : read_bytes fs bin_data public_key_file = .ok r) :
    (∃ rest, r.payload ++ rest = bin_data)
    ∧ (pyTake 9 (pyLast 350 bin_data) = METADATA_tag → r.payload = pyDropLast 350 bin_data)
    ∧ (pyTake 9 (pyLast 350 bin_data) ≠ METADATA_tag → r.payload = bin_data) := by
  have hp := read_bytes_ok_payload fs bin_data public_key_file r h
  by_cases hdet : pyTake 9 (pyLast 350 bin_data) = METADATA_tag
  · rw [if_pos hdet] at hp
    refine ⟨⟨pyLast 350 bin_data, ?_⟩, fun _ => hp, fun hn => absurd hdet hn⟩
    rw [hp]
    unfold pyDropLast pyLast
    exact List.take_append_drop _ _
  · rw [if_neg hdet] at hp
    exact ⟨⟨[], by rw [hp, List.append_nil]⟩, fun hc => absurd hc hdet, fun _ => hp⟩

/-- Claim C9 witness: the one-byte input `[1]` is returned whole. -/
theorem read_bytes_returns_prefix_witness :
    (∃ rest, (⟨[1], []⟩ : ReadResult).payload ++ rest = ([1] : Bytes))
    ∧ (pyTake 9 (pyLast 350 [1]) = METADATA_tag
        → (⟨[1], []⟩ : ReadResult).payload = pyDropLast 350 [1])
    ∧ (pyTake 9 (pyLast 350 [1]) ≠ METADATA_tag
        → (⟨[1], []⟩ : ReadResult).payload = [1]) :=
  read_bytes_returns_prefix fsPub [1] none ⟨[1], []⟩ rfl

end VWFlash
